import Mathlib

/-!
Verification of `src/tools/carepartner-helper.ts` from 80xer/css-mcp-server.

The file shallowly embeds the module's two components:

* `fetchWithTimeout` — the timeout-wrapped fetch (lines 13-31 of the source),
  modelled over an abstract upstream outcome (the settlement of the `fetch`
  promise) together with an explicit timer state, so that timer cleanup is
  visible in the model.
* `registerSearchCareJobsTool` — the credential-gated registration
  (lines 34-48), and the tool handler closure (lines 49-128) as
  `searchCareJobsHandler`, mapping an upstream outcome to the returned
  ToolResult plus the console diagnostics emitted on the way.

JavaScript dynamic values reachable in this code (parsed JSON bodies, thrown
values) are embedded as `JsVal` / `Thrown`, with JS truthiness, property
access and optional chaining spelled out.
-/

/-- A JavaScript value as far as this module can observe one: the parsed JSON
body (`response.json()`) and the values flowing through the optional chain
`data.choices?.[0]?.message?.content`. Numbers are embedded as integers; the
module never does arithmetic on them, only truthiness tests. -/
inductive JsVal where
  | str : String → JsVal
  | num : Int → JsVal
  | bool : Bool → JsVal
  | null : JsVal
  | undefined : JsVal
  | obj : List (String × JsVal) → JsVal
  | arr : List JsVal → JsVal

/-- A JavaScript `Error` object: the code inspects `error.name` (for
`"AbortError"`) and `error.message`. -/
structure JsError where
  name : String
  message : String
deriving DecidableEq, Repr

/-- A thrown JavaScript value: either an `Error` instance (so that
`error instanceof Error` holds) or any other value. -/
inductive Thrown where
  | err : JsError → Thrown
  | other : JsVal → Thrown

/-- JS truthiness, as used by `if (!assistantMessage)` (line 102) and the
credential check `if (!openRouterApiKey)` (line 36). -/
def truthy : JsVal → Bool
  | .str s => !s.isEmpty
  | .num n => n != 0
  | .bool b => b
  | .null => false
  | .undefined => false
  | .obj _ => true
  | .arr _ => true

/-- Whether `v` is `null` or `undefined` — the short-circuit condition of the JS
optional-chaining operator. -/
def isNullish : JsVal → Bool
  | .null => true
  | .undefined => true
  | _ => false

/-- JS property access `v.key` on a non-nullish receiver: field lookup on an
object, `undefined` on everything else reachable here. -/
def getField : JsVal → String → JsVal
  | .obj fields, key =>
    match fields.lookup key with
    | some v => v
    | none => .undefined
  | _, _ => .undefined

/-- JS index access `v[i]` on a non-nullish receiver: element lookup on an
array (missing index gives `undefined`), character access on a string,
`undefined` otherwise. -/
def getIndex : JsVal → Nat → JsVal
  | .arr elems, i =>
    match elems.get? i with
    | some v => v
    | none => .undefined
  | .str s, i =>
    match s.data.get? i with
    | some c => .str (String.mk [c])
    | none => .undefined
  | _, _ => .undefined

/-- The response object `fetchWithTimeout` resolves with, as far as the
handler consumes it: `response.ok`, `response.status`, `response.statusText`,
the body read as text (`response.text()`, line 93) and the body parsed as
JSON (`response.json()`, line 99, which itself may throw on a non-JSON
body). -/
structure HttpResponse where
  ok : Bool
  status : Nat
  statusText : String
  bodyText : String
  jsonResult : Except Thrown JsVal

/-- How one invocation of the upstream `fetch` settles: it either resolves
with a response, or rejects with a thrown value. A deadline-timer firing
surfaces as rejection with an `Error` named `"AbortError"`. -/
def FetchOutcome : Type := Except Thrown HttpResponse

/-- State of the deadline timer created by `setTimeout` on line 15. -/
structure TimerState where
  scheduled : Bool
deriving DecidableEq, Repr

/-- Model of `setTimeout(() => controller.abort(), timeout)`: schedules the deadline
timer (line 15). -/
def setDeadlineTimer (_timeout : Nat) : TimerState := ⟨true⟩

/-- Model of `clearTimeout(timeoutId)`: disarms the deadline timer
(lines 22 and 25). -/
def clearDeadlineTimer (_t : TimerState) : TimerState := ⟨false⟩

/-- The 25-second timeout constant `TIMEOUT_MS` (line 10). -/
def TIMEOUT_MS : Nat := 25000

/-- The wrapper `fetchWithTimeout` (source lines 13-31), over the settlement of the inner
`fetch`. Returns what the wrapper itself settles with, paired with the final
state of the deadline timer:

* resolution → `clearTimeout`, return the response (lines 22-23);
* rejection with an `Error` named `"AbortError"` → `clearTimeout`, throw a
  fresh `Error` naming the configured duration (lines 25-27);
* any other rejection → `clearTimeout`, rethrow as-is (lines 25, 29). -/
def fetchWithTimeout (outcome : FetchOutcome) (timeout : Nat) :
    Except Thrown HttpResponse × TimerState :=
  let timeoutId := setDeadlineTimer timeout
  match outcome with
  | .ok response => (.ok response, clearDeadlineTimer timeoutId)
  | .error e =>
    let cleared := clearDeadlineTimer timeoutId
    match e with
    | .err errObj =>
      if errObj.name = "AbortError" then
        (.error (.err ⟨"Error",
          "요청 시간이 초과되었습니다. (" ++ toString timeout ++ "ms)"⟩), cleared)
      else
        (.error e, cleared)
    | .other _ => (.error e, cleared)

/-- The condition `error instanceof Error && error.name === "AbortError"`
(line 26). -/
def isAbortError : Thrown → Bool
  | .err e => e.name = "AbortError"
  | .other _ => false

/-- The extraction `data.choices?.[0]?.message?.content` (line 100). The first access
`data.choices` is unconditional, so a nullish `data` raises a `TypeError`;
each later step is optional-chained and short-circuits to `undefined`. -/
def extractAssistantMessage (data : JsVal) : Except Thrown JsVal :=
  if isNullish data then
    .error (.err ⟨"TypeError",
      "Cannot read properties of null or undefined (reading \x27choices\x27)"⟩)
  else
    let choices := getField data "choices"
    if isNullish choices then .ok .undefined
    else
      let first := getIndex choices 0
      if isNullish first then .ok .undefined
      else
        let message := getField first "message"
        if isNullish message then .ok .undefined
        else .ok (getField message "content")

/-- One content item of a ToolResult. On the success path the source puts the
extracted value straight into `text` (line 111), so `text` is a `JsVal`; every
failure path writes a string. -/
structure ToolContent where
  type : String
  text : JsVal

/-- The uniform result shape `{ content: [...] }` returned to the host
runtime on every path. -/
structure ToolResult where
  content : List ToolContent

/-- The `text` of the first content item, `undefined` when there is none. -/
def ToolResult.firstText (r : ToolResult) : JsVal :=
  match r.content with
  | item :: _ => item.text
  | [] => .undefined

/-- Console diagnostics the module emits: `console.warn` (line 37) and the
two `console.error` calls, one carrying the malformed parsed body (line 103)
and one carrying the caught thrown value (line 116). -/
inductive LogItem where
  | warn : String → LogItem
  | errorData : String → JsVal → LogItem
  | errorThrown : String → Thrown → LogItem

/-- The `try` block of the handler (lines 81-114), over the settlement of the
upstream fetch. The request construction (lines 50-79: URL, bearer header
from the bound credential, prompt body interpolated with `location`) only
feeds the network call, which the abstract outcome stands for, and does not
influence the result mapping. Returns what the block settles with (a
ToolResult or a thrown value) plus the diagnostics logged inside it:

* the fetch settlement passes through `fetchWithTimeout` (lines 82-90);
* `!response.ok` → throw an `Error` embedding status, statusText and the
  body text (lines 92-97);
* `response.json()` rejection propagates (line 99);
* extraction of `choices?.[0]?.message?.content`; a falsy result logs the
  parsed body and throws the fixed extraction `Error` (lines 100-105);
* otherwise the extracted value is wrapped as the single text item
  (lines 107-114). -/
def searchCareJobsTryBlock (outcome : FetchOutcome) :
    Except Thrown ToolResult × List LogItem :=
  match (fetchWithTimeout outcome TIMEOUT_MS).1 with
  | .error t => (.error t, [])
  | .ok response =>
    if response.ok = false then
      (.error (.err ⟨"Error",
        "OpenRouter API 요청 실패: " ++ toString response.status ++ " "
          ++ response.statusText ++ " - " ++ response.bodyText⟩), [])
    else
      match response.jsonResult with
      | .error t => (.error t, [])
      | .ok data =>
        match extractAssistantMessage data with
        | .error t => (.error t, [])
        | .ok assistantMessage =>
          if truthy assistantMessage = false then
            (.error (.err ⟨"Error", "OpenRouter 응답에서 메시지를 추출할 수 없습니다."⟩),
              [.errorData "OpenRouter 응답 구조 오류:" data])
          else
            (.ok ⟨[⟨"text", assistantMessage⟩]⟩, [])

/-- The fixed apology prefix of every failure ToolResult (lines 121-123),
up to the interpolated fault message. -/
def apologyPreamble : String :=
  "죄송합니다. 일자리 검색 중 문제가 발생했습니다. 잠시 후 다시 시도해주세요.\n오류: "

/-- The expression `error instanceof Error ? error.message : "알 수 없는 오류"` (line 122). -/
def thrownMessage : Thrown → String
  | .err e => e.message
  | .other _ => "알 수 없는 오류"

/-- The full handler (lines 49-128): the `try` block plus the outermost
`catch`, which logs the caught value and converts it into the apology
ToolResult (lines 115-127). Returns the ToolResult handed to the host runtime
together with all diagnostics logged during the invocation. The handler is a
total function into `ToolResult × List LogItem`: no thrown value escapes. -/
def searchCareJobsHandler (outcome : FetchOutcome) : ToolResult × List LogItem :=
  match searchCareJobsTryBlock outcome with
  | (.ok result, logs) => (result, logs)
  | (.error caught, logs) =>
    (⟨[⟨"text", .str (apologyPreamble ++ thrownMessage caught)⟩]⟩,
      logs ++ [.errorThrown "일자리 검색 중 오류 발생:" caught])

/-- The process environment, as a mapping from variable names to values; a
variable that is unset maps to `none`. -/
def Env : Type := String → Option String

/-- The module-scope read `const openRouterApiKey = process.env.OPENROUTER_API_KEY`
(line 9), evaluated against the environment as it stands when the module is
loaded. -/
def openRouterApiKey (envAtLoad : Env) : Option String :=
  envAtLoad "OPENROUTER_API_KEY"

/-- Truthiness of `string | undefined`, as tested by
`if (!openRouterApiKey)` (line 36): unset and the empty string are falsy. -/
def credentialTruthy : Option String → Bool
  | none => false
  | some s => !s.isEmpty

/-- What one call of the registration gate produces: the warnings printed and
the tool-table entries installed, each entry carrying the tool name and the
credential value the handler closure is bound over. -/
structure RegistrationResult where
  warnings : List String
  registered : List (String × String)
deriving DecidableEq, Repr

/-- The `console.warn` message of the missing-credential branch
(lines 37-39). -/
def missingKeyWarning : String :=
  "OPENROUTER_API_KEY가 .env 파일에 없습니다. \x27search_care_jobs\x27 도구가 등록되지 않습니다."

/-- The gate `registerSearchCareJobsTool` (lines 34-130), over the module-scope
credential value: a falsy credential emits the single warning and registers
nothing (lines 36-41); otherwise exactly one tool named `"search_care_jobs"`
is registered, its handler bound over the credential value (lines 43-129).
No error is raised in either case — the function is total. -/
def registerSearchCareJobsTool (key : Option String) : RegistrationResult :=
  if credentialTruthy key = false then
    ⟨[missingKeyWarning], []⟩
  else
    ⟨[], [("search_care_jobs", key.getD "")]⟩

/-- Loading the module under `envAtLoad` and later invoking the registration
gate while the process environment has meanwhile become `envAtCall`: the gate
tests the module-scope constant captured at load time, so `envAtCall` is not
consulted. -/
def registerAtCallTime (envAtLoad : Env) (_envAtCall : Env) : RegistrationResult :=
  registerSearchCareJobsTool (openRouterApiKey envAtLoad)

/-! ## Helper lemmas -/

theorem stringAppend_assoc (a b c : String) : a ++ b ++ c = a ++ (b ++ c) := by
  rcases a with ⟨la⟩; rcases b with ⟨lb⟩; rcases c with ⟨lc⟩
  show String.mk (la ++ lb ++ lc) = String.mk (la ++ (lb ++ lc))
  rw [List.append_assoc]

/-- Evaluation of the try block when the fetch resolves with a response whose
status is a success, the body parses, and the extracted message value is
truthy. -/
theorem tryBlock_success_eq (resp : HttpResponse) (data v : JsVal)
    (hok : resp.ok = true) (hjson : resp.jsonResult = .ok data)
    (hex : extractAssistantMessage data = .ok v) (htruthy : truthy v = true) :
    searchCareJobsTryBlock (.ok resp) = (.ok ⟨[⟨"text", v⟩]⟩, []) := by
  simp only [searchCareJobsTryBlock, fetchWithTimeout, hok, hjson, hex, htruthy]
  rfl

/-- Evaluation of the try block when the fetch resolves with a success status
and a parsed body, but the extracted message value is falsy. -/
theorem tryBlock_malformed_eq (resp : HttpResponse) (data v : JsVal)
    (hok : resp.ok = true) (hjson : resp.jsonResult = .ok data)
    (hex : extractAssistantMessage data = .ok v) (hfalsy : truthy v = false) :
    searchCareJobsTryBlock (.ok resp) =
      (.error (.err ⟨"Error", "OpenRouter 응답에서 메시지를 추출할 수 없습니다."⟩),
        [.errorData "OpenRouter 응답 구조 오류:" data]) := by
  simp only [searchCareJobsTryBlock, fetchWithTimeout, hok, hjson, hex, hfalsy]
  rfl

/-- Evaluation of the full handler on the falsy-extraction path. -/
theorem handler_malformed_eq (resp : HttpResponse) (data v : JsVal)
    (hok : resp.ok = true) (hjson : resp.jsonResult = .ok data)
    (hex : extractAssistantMessage data = .ok v) (hfalsy : truthy v = false) :
    searchCareJobsHandler (.ok resp) =
      (⟨[⟨"text", .str (apologyPreamble ++ "OpenRouter 응답에서 메시지를 추출할 수 없습니다.")⟩]⟩,
        [.errorData "OpenRouter 응답 구조 오류:" data,
         .errorThrown "일자리 검색 중 오류 발생:"
           (.err ⟨"Error", "OpenRouter 응답에서 메시지를 추출할 수 없습니다."⟩)]) := by
  unfold searchCareJobsHandler
  rw [tryBlock_malformed_eq resp data v hok hjson hex hfalsy]
  rfl

/-! ## Claims -/

/-- C1: every fault arising inside the handler — timeout, transport failure,
non-success HTTP status, malformed upstream body, all of which surface as the
try block settling with a thrown value — is converted into the well-formed
ToolResult whose single text item is the fixed apology preamble followed by
the fault's message text; since `searchCareJobsHandler` is a total function
into `ToolResult × List LogItem`, no fault propagates past the handler
boundary. -/
theorem searchCareJobs_fault_yields_apology_toolResult
    (outcome : FetchOutcome) (caught : Thrown) (logs : List LogItem)
    (h : searchCareJobsTryBlock outcome = (.error caught, logs)) :
    (searchCareJobsHandler outcome).1 =
      ⟨[⟨"text", .str (apologyPreamble ++ thrownMessage caught)⟩]⟩ := by
  unfold searchCareJobsHandler
  rw [h]

/-- Witness for C1 at a concrete transport fault. -/
theorem searchCareJobs_fault_yields_apology_toolResult_witness :
    (searchCareJobsHandler (.error (.err ⟨"FetchError", "socket hang up"⟩))).1 =
      ⟨[⟨"text", .str (apologyPreamble ++ "socket hang up")⟩]⟩ :=
  searchCareJobs_fault_yields_apology_toolResult
    (.error (.err ⟨"FetchError", "socket hang up"⟩))
    (.err ⟨"FetchError", "socket hang up"⟩) [] rfl

/-- C3: when the deadline timer's cancellation fires before the HTTP
operation completes (the fetch rejects with an `Error` named `"AbortError"`,
whatever its message), the handler returns the apology ToolResult whose text
names the configured 25000 ms duration; in particular `"25000"` occurs as a
substring and the apology preamble is a prefix. -/
theorem searchCareJobs_timeout_names_duration (abortMessage : String) :
    (searchCareJobsHandler (.error (.err ⟨"AbortError", abortMessage⟩))).1 =
      ⟨[⟨"text", .str (apologyPreamble ++ "요청 시간이 초과되었습니다. (25000ms)")⟩]⟩ ∧
    (∃ a b, apologyPreamble ++ "요청 시간이 초과되었습니다. (25000ms)" =
      a ++ "25000" ++ b) ∧
    (∃ c, apologyPreamble ++ "요청 시간이 초과되었습니다. (25000ms)" =
      apologyPreamble ++ c) := by
  refine ⟨rfl,
    ⟨apologyPreamble ++ "요청 시간이 초과되었습니다. (", "ms)", ?_⟩,
    ⟨"요청 시간이 초과되었습니다. (25000ms)", rfl⟩⟩
  rfl

/-- C6: on every exit path of `fetchWithTimeout` — normal completion, abort,
and any other error — the deadline timer has been cleared by the time the
wrapper returns or rethrows: no pending timer remains scheduled. -/
theorem fetchWithTimeout_clears_timer (outcome : FetchOutcome) (timeout : Nat) :
    ((fetchWithTimeout outcome timeout).2).scheduled = false := by
  cases outcome with
  | ok r => rfl
  | error e =>
    cases e with
    | err errObj =>
      unfold fetchWithTimeout
      dsimp only
      split <;> rfl
    | other v => rfl

/-- C7: a fault thrown by the transport that is not identified as a
cancellation (`error instanceof Error && error.name === "AbortError"` fails)
is re-raised by `fetchWithTimeout` unchanged, and its message text is passed
through verbatim into the ToolResult text after the apology preamble. -/
theorem fetchWithTimeout_nonAbort_rethrown_verbatim
    (timeout : Nat) (t : Thrown) (h : isAbortError t = false) :
    (fetchWithTimeout (.error t) timeout).1 = .error t ∧
    (searchCareJobsHandler (.error t)).1 =
      ⟨[⟨"text", .str (apologyPreamble ++ thrownMessage t)⟩]⟩ := by
  cases t with
  | err e =>
    simp only [isAbortError, decide_eq_false_iff_not] at h
    constructor
    · simp [fetchWithTimeout, h]
    · unfold searchCareJobsHandler searchCareJobsTryBlock
      simp [fetchWithTimeout, h]
  | other v => exact ⟨rfl, rfl⟩

/-- Witness for C7 at a concrete connection-reset fault. -/
theorem fetchWithTimeout_nonAbort_rethrown_verbatim_witness :
    (fetchWithTimeout (.error (.err ⟨"FetchError", "ECONNRESET"⟩)) 25000).1 =
      .error (.err ⟨"FetchError", "ECONNRESET"⟩) ∧
    (searchCareJobsHandler (.error (.err ⟨"FetchError", "ECONNRESET"⟩))).1 =
      ⟨[⟨"text", .str (apologyPreamble ++ "ECONNRESET")⟩]⟩ :=
  fetchWithTimeout_nonAbort_rethrown_verbatim 25000 (.err ⟨"FetchError", "ECONNRESET"⟩) rfl

/-- A parsed success body whose `choices[0].message.content` is present but
is the empty string. -/
def emptyContentData : JsVal :=
  .obj [("choices", .arr [.obj [("message", .obj [("content", .str "")])]])]

/-- A status-200 response carrying `emptyContentData`. -/
def emptyContentResponse : HttpResponse :=
  ⟨true, 200, "OK", "", .ok emptyContentData⟩

/-- A parsed success body with the expected shape and a non-empty message. -/
def sampleContentData : JsVal :=
  .obj [("choices", .arr [.obj [("message", .obj [("content", .str "1. Title...")])]])]

/-- A status-200 response carrying `sampleContentData`. -/
def sampleContentResponse : HttpResponse :=
  ⟨true, 200, "OK", "", .ok sampleContentData⟩

/-- A status-200 response whose parsed body is `\x7b\x7d` (no `choices`). -/
def emptyObjResponse : HttpResponse :=
  ⟨true, 200, "OK", "", .ok (.obj [])⟩

/-- A status-500 response with body text `"server error"`. -/
def serverErrorResponse : HttpResponse :=
  ⟨false, 500, "Internal Server Error", "server error", .ok .null⟩

/-- C2 counterexample: the upstream answers with a success status and
`choices[0].message.content` equal to the string `""`, yet the handler does
not return that string — the truthiness test sends the empty string down the
malformed-response path, so the claim fails for `s = ""`. -/
theorem searchCareJobs_emptyString_content_not_returned_verbatim :
    emptyContentResponse.ok = true ∧
    emptyContentResponse.jsonResult = .ok emptyContentData ∧
    extractAssistantMessage emptyContentData = .ok (.str "") ∧
    (searchCareJobsHandler (.ok emptyContentResponse)).1 ≠ ⟨[⟨"text", .str ""⟩]⟩ := by
  refine ⟨rfl, rfl, rfl, ?_⟩
  intro h
  have hval : (searchCareJobsHandler (.ok emptyContentResponse)).1 =
      ⟨[⟨"text", .str (apologyPreamble ++ "OpenRouter 응답에서 메시지를 추출할 수 없습니다.")⟩]⟩ := rfl
  rw [hval] at h
  simp only [ToolResult.mk.injEq, List.cons.injEq, and_true, ToolContent.mk.injEq,
    true_and, JsVal.str.injEq] at h
  exact absurd h (by decide)

/-- C2 (amended): for every invocation where the upstream responds with a
success status and a body whose `choices[0].message.content` is a non-empty
string `s`, the handler returns a ToolResult with exactly one content item of
type `"text"` whose text equals `s` exactly. (The claim fails as stated for
the empty string, which is falsy and takes the malformed-response path.) -/
theorem searchCareJobs_success_returns_content_verbatim
    (resp : HttpResponse) (data : JsVal) (s : String)
    (hok : resp.ok = true) (hjson : resp.jsonResult = .ok data)
    (hex : extractAssistantMessage data = .ok (.str s)) (hne : s ≠ "") :
    (searchCareJobsHandler (.ok resp)).1 = ⟨[⟨"text", .str s⟩]⟩ := by
  have hempty : s.isEmpty = false := by
    cases h : s.isEmpty
    · rfl
    · exact absurd ((String.isEmpty_iff s).mp h) hne
  have htruthy : truthy (.str s) = true := by simp [truthy, hempty]
  unfold searchCareJobsHandler
  rw [tryBlock_success_eq resp data (.str s) hok hjson hex htruthy]

/-- Witness for the amended C2 at the Scenario A response. -/
theorem searchCareJobs_success_returns_content_verbatim_witness :
    (searchCareJobsHandler (.ok sampleContentResponse)).1 =
      ⟨[⟨"text", .str "1. Title..."⟩]⟩ :=
  searchCareJobs_success_returns_content_verbatim sampleContentResponse sampleContentData
    "1. Title..." rfl rfl rfl (by decide)

/-- C4: a response with a non-success status makes the handler raise a fault
whose message embeds the status code, the status text and the body read as
text, and the returned ToolResult text is the apology preamble followed by
that message; in particular the status code and the body text occur as
substrings. -/
theorem searchCareJobs_httpError_embeds_status_and_body
    (resp : HttpResponse) (hok : resp.ok = false) :
    (searchCareJobsHandler (.ok resp)).1 =
      ⟨[⟨"text", .str (apologyPreamble ++
        ("OpenRouter API 요청 실패: " ++ toString resp.status ++ " "
          ++ resp.statusText ++ " - " ++ resp.bodyText))⟩]⟩ ∧
    (∃ a b, apologyPreamble ++
        ("OpenRouter API 요청 실패: " ++ toString resp.status ++ " "
          ++ resp.statusText ++ " - " ++ resp.bodyText) =
      a ++ toString resp.status ++ b) ∧
    (∃ c, apologyPreamble ++
        ("OpenRouter API 요청 실패: " ++ toString resp.status ++ " "
          ++ resp.statusText ++ " - " ++ resp.bodyText) =
      c ++ resp.bodyText) := by
  have h1 : searchCareJobsTryBlock (.ok resp) =
      (.error (.err ⟨"Error", "OpenRouter API 요청 실패: " ++ toString resp.status ++ " "
        ++ resp.statusText ++ " - " ++ resp.bodyText⟩), []) := by
    simp only [searchCareJobsTryBlock, fetchWithTimeout, hok]
    rfl
  refine ⟨?_, ?_, ?_⟩
  · unfold searchCareJobsHandler
    rw [h1]
    rfl
  · exact ⟨apologyPreamble ++ "OpenRouter API 요청 실패: ",
      " " ++ resp.statusText ++ " - " ++ resp.bodyText, by simp [stringAppend_assoc]⟩
  · exact ⟨apologyPreamble ++ ("OpenRouter API 요청 실패: " ++ toString resp.status ++ " "
      ++ resp.statusText ++ " - "), by simp [stringAppend_assoc]⟩

/-- Witness for C4 at the Scenario C response (status 500, body
`"server error"`): the text contains `"500"` and `"server error"`. -/
theorem searchCareJobs_httpError_embeds_status_and_body_witness :
    (searchCareJobsHandler (.ok serverErrorResponse)).1 =
      ⟨[⟨"text", .str (apologyPreamble ++
        "OpenRouter API 요청 실패: 500 Internal Server Error - server error")⟩]⟩ :=
  (searchCareJobs_httpError_embeds_status_and_body serverErrorResponse rfl).1

/-- C5: a success-status response whose parsed body lacks
`choices[0].message.content` (the extraction yields `undefined`) makes the
handler log the malformed parsed body and return the apology ToolResult with
the fixed generic extraction-failure message — a constant string independent
of the body, so no upstream-internal detail reaches the user. -/
theorem searchCareJobs_missing_field_logs_and_generic_message
    (resp : HttpResponse) (data : JsVal)
    (hok : resp.ok = true) (hjson : resp.jsonResult = .ok data)
    (hex : extractAssistantMessage data = .ok .undefined) :
    searchCareJobsHandler (.ok resp) =
      (⟨[⟨"text", .str (apologyPreamble ++ "OpenRouter 응답에서 메시지를 추출할 수 없습니다.")⟩]⟩,
        [.errorData "OpenRouter 응답 구조 오류:" data,
         .errorThrown "일자리 검색 중 오류 발생:"
           (.err ⟨"Error", "OpenRouter 응답에서 메시지를 추출할 수 없습니다."⟩)]) :=
  handler_malformed_eq resp data .undefined hok hjson hex rfl

/-- Witness for C5 at the Scenario D response (status 200, body without
`choices`). -/
theorem searchCareJobs_missing_field_logs_and_generic_message_witness :
    searchCareJobsHandler (.ok emptyObjResponse) =
      (⟨[⟨"text", .str (apologyPreamble ++ "OpenRouter 응답에서 메시지를 추출할 수 없습니다.")⟩]⟩,
        [.errorData "OpenRouter 응답 구조 오류:" (.obj []),
         .errorThrown "일자리 검색 중 오류 발생:"
           (.err ⟨"Error", "OpenRouter 응답에서 메시지를 추출할 수 없습니다."⟩)]) :=
  searchCareJobs_missing_field_logs_and_generic_message emptyObjResponse (.obj []) rfl rfl rfl

/-- C8: with a falsy credential the registration gate emits exactly the one
warning — which names both the missing variable and the tool — and registers
nothing, raising no error (the gate is a total function); with a truthy
credential it registers exactly one tool named `"search_care_jobs"`, bound
over the credential value. -/
theorem registerSearchCareJobsTool_credential_gating (key : Option String) :
    (credentialTruthy key = false →
      registerSearchCareJobsTool key = ⟨[missingKeyWarning], []⟩ ∧
      ∃ a b, missingKeyWarning = "OPENROUTER_API_KEY" ++ a ++ ("search_care_jobs" ++ b)) ∧
    (credentialTruthy key = true →
      ∃ s, key = some s ∧
        registerSearchCareJobsTool key = ⟨[], [("search_care_jobs", s)]⟩) := by
  constructor
  · intro h
    refine ⟨by simp [registerSearchCareJobsTool, h],
      "가 .env 파일에 없습니다. \x27", "\x27 도구가 등록되지 않습니다.", ?_⟩
    rfl
  · intro h
    cases key with
    | none => simp [credentialTruthy] at h
    | some s =>
      exact ⟨s, rfl, by simp [registerSearchCareJobsTool, h]⟩

/-- Witness for C8: absent credential warns and registers nothing; a present
credential registers the single tool bound over it. -/
theorem registerSearchCareJobsTool_credential_gating_witness :
    registerSearchCareJobsTool none = ⟨[missingKeyWarning], []⟩ ∧
    registerSearchCareJobsTool (some "sk-or-test") =
      ⟨[], [("search_care_jobs", "sk-or-test")]⟩ := by
  constructor
  · exact ((registerSearchCareJobsTool_credential_gating none).1 rfl).1
  · obtain ⟨s, hs, hr⟩ := (registerSearchCareJobsTool_credential_gating (some "sk-or-test")).2 rfl
    cases hs
    exact hr

/-- An environment that holds the credential when the module is loaded. -/
def envWithKeyAtLoad : Env :=
  fun name => if name = "OPENROUTER_API_KEY" then some "sk-captured" else none

/-- An environment with no credential, standing for the process state at the
moment the gate is later invoked. -/
def envWithoutKeyAtCall : Env :=
  fun _ => none

/-- C9 counterexample: the credential is read at module-load time (line 9),
not when the gate is called. With the credential present at load but absent
from the process environment at gate-call time, the gate still registers the
tool — the opposite of what registration reflecting the call-time
configuration would do. -/
theorem registration_ignores_callTime_configuration :
    envWithoutKeyAtCall "OPENROUTER_API_KEY" = none ∧
    registerAtCallTime envWithKeyAtLoad envWithoutKeyAtCall =
      ⟨[], [("search_care_jobs", "sk-captured")]⟩ ∧
    registerSearchCareJobsTool (openRouterApiKey envWithoutKeyAtCall) =
      ⟨[missingKeyWarning], []⟩ :=
  ⟨rfl, rfl, rfl⟩

/-- C9 (amended): the configuration is read exactly once, at module-load
time; the gate's decision and the credential the handler is bound over are a
function of the load-time environment alone — the process environment at
gate-call time is never consulted. -/
theorem registration_reflects_loadTime_configuration
    (envAtLoad envAtCall envAtCall' : Env) :
    registerAtCallTime envAtLoad envAtCall = registerAtCallTime envAtLoad envAtCall' ∧
    registerAtCallTime envAtLoad envAtCall =
      registerSearchCareJobsTool (openRouterApiKey envAtLoad) :=
  ⟨rfl, rfl⟩

/-- C10: a success-status response in which `choices[0].message.content` is
present but falsy (in particular the empty string) takes the
malformed-response path — logging the parsed body and returning the apology
ToolResult with the extraction-failure message — and not the success path
that would return the falsy value as the text. -/
theorem searchCareJobs_falsy_content_takes_malformed_path
    (resp : HttpResponse) (data v : JsVal)
    (hok : resp.ok = true) (hjson : resp.jsonResult = .ok data)
    (hex : extractAssistantMessage data = .ok v) (hfalsy : truthy v = false) :
    searchCareJobsHandler (.ok resp) =
      (⟨[⟨"text", .str (apologyPreamble ++ "OpenRouter 응답에서 메시지를 추출할 수 없습니다.")⟩]⟩,
        [.errorData "OpenRouter 응답 구조 오류:" data,
         .errorThrown "일자리 검색 중 오류 발생:"
           (.err ⟨"Error", "OpenRouter 응답에서 메시지를 추출할 수 없습니다."⟩)]) ∧
    (searchCareJobsHandler (.ok resp)).1 ≠ ⟨[⟨"text", v⟩]⟩ := by
  have h := handler_malformed_eq resp data v hok hjson hex hfalsy
  refine ⟨h, ?_⟩
  rw [h]
  intro hcontra
  have hv : JsVal.str (apologyPreamble ++ "OpenRouter 응답에서 메시지를 추출할 수 없습니다.") = v := by
    have := congrArg ToolResult.firstText hcontra
    simpa [ToolResult.firstText] using this
  rw [← hv] at hfalsy
  exact absurd hfalsy (by decide)

/-- Witness for C10 at the empty-string-content response. -/
theorem searchCareJobs_falsy_content_takes_malformed_path_witness :
    searchCareJobsHandler (.ok emptyContentResponse) =
      (⟨[⟨"text", .str (apologyPreamble ++ "OpenRouter 응답에서 메시지를 추출할 수 없습니다.")⟩]⟩,
        [.errorData "OpenRouter 응답 구조 오류:" emptyContentData,
         .errorThrown "일자리 검색 중 오류 발생:"
           (.err ⟨"Error", "OpenRouter 응답에서 메시지를 추출할 수 없습니다."⟩)]) ∧
    (searchCareJobsHandler (.ok emptyContentResponse)).1 ≠ ⟨[⟨"text", .str ""⟩]⟩ :=
  searchCareJobs_falsy_content_takes_malformed_path emptyContentResponse emptyContentData
    (.str "") rfl rfl rfl rfl
